import Mathlib

/-!
# Product-catalog backend (`app.js`): schema installer and product ingest

A verification development over a shallow embedding of `app.js`.

The relational store reached through `connection.query` is an external
collaborator; it is modelled as an arbitrary deterministic state machine
(`Store`) that answers every statement handed to it, either with a result
packet or with an error object.  The two request handlers are functions from a
store and its current state to the list of observable events they cause
(statements issued, console lines, responses sent) and the store's next state.
-/

namespace App

set_option maxRecDepth 100000

/-! ## Store interface (`mysql` connection) -/

/-- The error object handed to a `connection.query` callback.  The handlers read
only `err.sqlMessage`, which is `undefined` (`none`) on errors that did not come
from the server. -/
structure MysqlError where
  sqlMessage : Option String
  deriving DecidableEq, Repr

/-- The `results` object of a successful statement; `insertId` is the generated
key of an insert. -/
structure OkPacket where
  insertId : Nat
  deriving DecidableEq, Repr

/-- What the callback of `connection.query` receives: `(err)` or `(null, results)`. -/
inductive Reply where
  | ok (results : OkPacket)
  | err (e : MysqlError)
  deriving DecidableEq, Repr

/-- A statement handed to `connection.query`: its text and the values bound to
its `?` placeholders (`V` is the type of JavaScript values). -/
structure Query (V : Type) where
  sql : String
  values : List V
  deriving DecidableEq, Repr

/-- The store behind the connection: a deterministic state machine that answers
each statement and moves to a next state. -/
structure Store (σ V : Type) where
  query : σ → Query V → Reply × σ

/-! ## Observable events of a handler -/

/-- The response sent on `res`: `res.send(body)` has status 200,
`res.status(500).send(body)` has status 500. -/
structure Response where
  status : Nat
  body : String
  deriving DecidableEq, Repr

/-- One observable effect of a handler, in the order in which it happens. -/
inductive Event (V : Type) where
  | issued (q : Query V)
  | consoleError (text : String) (e : MysqlError)
  | consoleLog (text : String)
  | consoleLogId (text : String) (id : Nat)
  | sent (r : Response)
  deriving DecidableEq, Repr

/-- The result of running a handler: its events, oldest first, and the state the
store is left in. -/
structure Outcome (σ V : Type) where
  events : List (Event V)
  store : σ

/-- Puts an event in front of an outcome. -/
def Outcome.after {σ V : Type} (e : List (Event V)) (o : Outcome σ V) : Outcome σ V :=
  ⟨e ++ o.events, o.store⟩

/-- The statements issued, in order. -/
def issuedOf {V : Type} : List (Event V) → List (Query V)
  | [] => []
  | Event.issued q :: es => q :: issuedOf es
  | _ :: es => issuedOf es

/-- The responses sent, in order. -/
def sentOf {V : Type} : List (Event V) → List Response
  | [] => []
  | Event.sent r :: es => r :: sentOf es
  | _ :: es => sentOf es

/-- How a template literal renders `err.sqlMessage`: the message, or the text
`undefined` when the property is absent. -/
def template : Option String → String
  | some m => m
  | none => "undefined"

/-! ## Schema installer (`GET /install`) -/

/-- The array `createTablesQueries` of `app.js`, character for character. -/
def createTablesQueries : List String :=
  [ "CREATE TABLE IF NOT EXISTS products (\n    product_id INT AUTO_INCREMENT PRIMARY KEY,  // Unique identifier\n    name VARCHAR(255) NOT NULL,                // Product name\n    price DECIMAL(10,2) NOT NULL,              // Product price\n    description TEXT,                          // Detailed description\n    release_date DATE,                         // When product was released\n    image_url VARCHAR(255)                     // URL to product image\n);",
    "CREATE TABLE IF NOT EXISTS colors (\n    color_id INT AUTO_INCREMENT PRIMARY KEY,   // Unique color ID\n    product_id INT,                           // Links to products table\n    color_name VARCHAR(100) NOT NULL,         // Human-readable color name\n    color_code VARCHAR(7) NOT NULL,           // Hex color code\n    FOREIGN KEY (product_id) REFERENCES products(product_id) ON DELETE CASCADE\n    // Cascade delete if product is deleted\n);",
    "CREATE TABLE IF NOT EXISTS storage_options (\n    storage_id INT AUTO_INCREMENT PRIMARY KEY, // Unique storage ID\n    product_id INT,                           // Links to products table\n    capacity VARCHAR(50) NOT NULL,            // Storage size (e.g., \"128GB\")\n    price_diff DECIMAL(10,2) DEFAULT 0,       // Price difference from base model\n    FOREIGN KEY (product_id) REFERENCES products(product_id) ON DELETE CASCADE\n);",
    "CREATE TABLE IF NOT EXISTS features (\n    feature_id INT AUTO_INCREMENT PRIMARY KEY, // Unique feature ID\n    product_id INT,                           // Links to products table\n    feature_name VARCHAR(255) NOT NULL,       // Feature name\n    feature_description TEXT,                 // Feature details\n    FOREIGN KEY (product_id) REFERENCES products(product_id) ON DELETE CASCADE \n);",
    "CREATE TABLE IF NOT EXISTS specifications (\n    spec_id INT AUTO_INCREMENT PRIMARY KEY,   // Unique spec ID\n    product_id INT,                          // Links to products table\n    spec_name VARCHAR(255) NOT NULL,         // Specification name (e.g., \"Weight\")\n    spec_value VARCHAR(255) NOT NULL,        // Specification value (e.g., \"174g\")\n    FOREIGN KEY (product_id) REFERENCES products(product_id) ON DELETE CASCADE\n  );" ]

/-- Statement text of the toggle that suspends foreign-key checking. -/
def disableChecks : String := "SET FOREIGN_KEY_CHECKS = 0"

/-- Statement text of the toggle that restores foreign-key checking. -/
def enableChecks : String := "SET FOREIGN_KEY_CHECKS = 1"

/-- The recursive `executeQuery(index)` of the install handler. -/
def executeQuery {σ V : Type} (db : Store σ V) (index : Nat) (s : σ) : Outcome σ V :=
  if h : index ≥ createTablesQueries.length then
    match db.query s ⟨enableChecks, []⟩ with
    | (Reply.err e, s1) =>
        ⟨[Event.issued ⟨enableChecks, []⟩,
          Event.consoleError "Error re-enabling foreign key checks:" e,
          Event.sent ⟨200, "All tables created successfully!"⟩], s1⟩
    | (Reply.ok _, s1) =>
        ⟨[Event.issued ⟨enableChecks, []⟩,
          Event.sent ⟨200, "All tables created successfully!"⟩], s1⟩
  else
    have hlt : index < createTablesQueries.length := Nat.lt_of_not_le h
    match db.query s ⟨createTablesQueries[index], []⟩ with
    | (Reply.err e, s1) =>
        ⟨[Event.issued ⟨createTablesQueries[index], []⟩,
          Event.consoleError ("Error creating table " ++ toString (index + 1) ++ ":") e,
          Event.sent ⟨500, "Error creating table " ++ toString (index + 1) ++ ": "
            ++ template e.sqlMessage⟩], s1⟩
    | (Reply.ok _, s1) =>
        (executeQuery db (index + 1) s1).after
          [Event.issued ⟨createTablesQueries[index], []⟩,
           Event.consoleLog ("Table " ++ toString (index + 1) ++ " created successfully")]
termination_by createTablesQueries.length - index
decreasing_by omega

/-- The handler of `app.get("/install", ...)`. -/
def install {σ V : Type} (db : Store σ V) (s : σ) : Outcome σ V :=
  match db.query s ⟨disableChecks, []⟩ with
  | (Reply.err _, s1) =>
      ⟨[Event.issued ⟨disableChecks, []⟩,
        Event.sent ⟨500, "Error disabling foreign key checks"⟩], s1⟩
  | (Reply.ok _, s1) =>
      (executeQuery db 0 s1).after [Event.issued ⟨disableChecks, []⟩]

/-! ## Product ingest (`POST /add-product`) -/

/-- The template literal `insertQuery` of the ingest handler, character for
character. -/
def insertQuery : String :=
  "\n    INSERT INTO products (name, price, description, release_date, image_url)\n    VALUES (?, ?, ?, ?, ?)\n"

/-- The handler of `app.post("/add-product", ...)`.  `body` is `req.body`, read
by property name as the destructuring assignment does. -/
def addProduct {σ V : Type} (db : Store σ V) (body : String → V) (s : σ) : Outcome σ V :=
  let name := body "name"
  let price := body "price"
  let description := body "description"
  let release_date := body "release_date"
  let image_url := body "image_url"
  match db.query s ⟨insertQuery, [name, price, description, release_date, image_url]⟩ with
  | (Reply.err e, s1) =>
      ⟨[Event.issued ⟨insertQuery, [name, price, description, release_date, image_url]⟩,
        Event.consoleError "Error inserting product:" e,
        Event.sent ⟨500, "Error adding product: " ++ template e.sqlMessage⟩], s1⟩
  | (Reply.ok results, s1) =>
      ⟨[Event.issued ⟨insertQuery, [name, price, description, release_date, image_url]⟩,
        Event.consoleLogId "Product added successfully with ID:" results.insertId,
        Event.sent ⟨200, "Product added successfully!"⟩], s1⟩

/-! ## Registrations on the Express application -/

/-- The middleware functions the program installs with `app.use`. -/
inductive Middleware where
  | json
  | cors
  | urlencoded
  deriving DecidableEq, Repr

/-- Request methods of the registered routes. -/
inductive Method where
  | GET
  | POST
  deriving DecidableEq, Repr

/-- One registration on `app`: `app.use(m)` or `app.get` / `app.post` on a path. -/
inductive Layer where
  | use (m : Middleware)
  | route (method : Method) (path : String)
  deriving DecidableEq, Repr

/-- The registrations of `app.js` in source order (lines 40, 93, 133, 135, 138
and 169). -/
def app : List Layer :=
  [ Layer.use Middleware.json,
    Layer.route Method.GET "/install",
    Layer.use Middleware.cors,
    Layer.use Middleware.urlencoded,
    Layer.route Method.POST "/add-product",
    Layer.route Method.GET "/" ]

/-- Express runs the layers in registration order: a path-less `app.use`
middleware runs on every request that reaches it and passes it on; the first
route with the request's method and path handles the request, and the handlers
of `app.js` never pass a request on.  The result is the list of middleware a
request has gone through when its route handler runs. -/
def middlewareSeen : List Layer → Method → String → List Middleware
  | [], _, _ => []
  | Layer.use m :: rest, method, path => m :: middlewareSeen rest method path
  | Layer.route method1 path1 :: rest, method, path =>
      if method1 = method ∧ path1 = path then [] else middlewareSeen rest method path

/-! ## Vocabulary of the specification -/

/-- The statements of the installer as `connection.query` receives them: the
toggle, the five definitions, the restore; none binds a value. -/
def installQueries (V : Type) : List (Query V) :=
  (disableChecks :: createTablesQueries ++ [enableChecks]).map (fun sql => ⟨sql, []⟩)

/-- The answers the store gives when the statements `qs` are handed to it one
after the other, starting in state `s`. -/
def Store.answers {σ V : Type} (db : Store σ V) : σ → List (Query V) → List Reply
  | _, [] => []
  | s, q :: qs => (db.query s q).1 :: Store.answers db (db.query s q).2 qs

/-- The state the store is in after the statements `qs` were handed to it one
after the other, starting in state `s`. -/
def Store.stateAfter {σ V : Type} (db : Store σ V) : σ → List (Query V) → σ
  | s, [] => s
  | s, q :: qs => Store.stateAfter db (db.query s q).2 qs

/-- Position and error of the first failing answer of a list of answers. -/
def firstFailure : List Reply → Option (Nat × MysqlError)
  | [] => none
  | Reply.err e :: _ => some (0, e)
  | Reply.ok _ :: rest => (firstFailure rest).map (fun p => (p.1 + 1, p.2))

/-- How many of the seven statements the halt-on-first-failure rule lets
through: up to and including the first failing one among the first six, and all
seven when none of the first six fails. -/
def haltLength (answers : List Reply) : Nat :=
  match firstFailure (answers.take 6) with
  | some (k, _) => k + 1
  | none => 7

/-- The response the interface table promises for a run of the installer with
the given answers. -/
def installResponse (answers : List Reply) : Response :=
  match firstFailure (answers.take 6) with
  | none => ⟨200, "All tables created successfully!"⟩
  | some (0, _) => ⟨500, "Error disabling foreign key checks"⟩
  | some (k + 1, e) =>
      ⟨500, "Error creating table " ++ toString (k + 1) ++ ": " ++ template e.sqlMessage⟩

/-- The text `m` occurs verbatim inside `body`. -/
def Contains (body m : String) : Prop := m.data <:+: body.data

instance (body m : String) : Decidable (Contains body m) :=
  inferInstanceAs (Decidable (m.data <:+: body.data))

/-- The table a `CREATE TABLE IF NOT EXISTS t (...)` statement creates, `none`
for any other statement text. -/
def createTarget (sql : String) : Option String :=
  let intro := "CREATE TABLE IF NOT EXISTS ".data
  if intro.isPrefixOf sql.data then
    some (String.mk ((sql.data.drop intro.length).takeWhile (fun c => c ≠ ' ' ∧ c ≠ '(')))
  else none

/-- The five tables of the schema. -/
def schemaTables : Finset String :=
  {"products", "colors", "storage_options", "features", "specifications"}

/-- Whether `pat` occurs in `text`. -/
def hasInfix (pat : List Char) : List Char → Bool
  | [] => pat.isEmpty
  | c :: cs => pat.isPrefixOf (c :: cs) || hasInfix pat cs

/-- The lines of a text. -/
def linesOf : List Char → List (List Char)
  | [] => [[]]
  | c :: cs =>
    match linesOf cs with
    | [] => [[]]
    | l :: ls => if c = '\n' then [] :: l :: ls else (c :: l) :: ls

/-- A line without its leading and trailing blanks. -/
def trimBlanks (l : List Char) : List Char :=
  ((l.dropWhile (· = ' ')).reverse.dropWhile (· = ' ')).reverse

/-- The lines of a table definition that declare a foreign key (they hold
`FOREIGN KEY` or `REFERENCES`), trimmed. -/
def foreignKeyLines (stmt : String) : List String :=
  ((linesOf stmt.data).filter
      (fun l => hasInfix "FOREIGN KEY".data l || hasInfix "REFERENCES".data l)).map
    (fun l => String.mk (trimBlanks l))


/-! ## Concrete stores -/

/-- A store that counts the statements handed to it and fails statement number
`n` (counted from 0) with the message `msg`; every other statement succeeds. -/
def failingAt (n : Nat) (msg : String) : Store Nat String :=
  ⟨fun s _ => if s = n then (Reply.err ⟨some msg⟩, s + 1) else (Reply.ok ⟨0⟩, s + 1)⟩

/-- A store whose state is the set of existing tables: a
`CREATE TABLE IF NOT EXISTS t` statement succeeds and adds `t` when it is
absent, the two toggles succeed, anything else is a syntax error. -/
def tableStore : Store (Finset String) String :=
  ⟨fun s q =>
    match createTarget q.sql with
    | some t => (Reply.ok ⟨0⟩, insert t s)
    | none =>
        if q.sql = disableChecks ∨ q.sql = enableChecks then (Reply.ok ⟨0⟩, s)
        else (Reply.err ⟨some "You have an error in your SQL syntax"⟩, s)⟩

/-- A request body with the five fields of a product. -/
def sampleBody : String → String
  | "name" => "iPhone 15"
  | "price" => "799.00"
  | "description" => "A phone"
  | "release_date" => "2023-09-22"
  | "image_url" => "https://example.com/iphone15.png"
  | _ => "undefined"

/-- The first `k` answers of a list of answers are successes. -/
def FirstSucceed (answers : List Reply) (k : Nat) : Prop :=
  ∀ i, i < k → ∃ r, answers[i]? = some (Reply.ok r)

/-- The store model of the idempotence property, with `tables` reading the set
of existing tables off a store state: the two toggles succeed and leave the
tables as they are, and a `CREATE TABLE IF NOT EXISTS t` statement succeeds
whether or not `t` exists, after which the tables are those before and `t`. -/
structure CreatesIfAbsent {σ V : Type} (db : Store σ V) (tables : σ → Finset String) :
    Prop where
  disable : ∀ s, (∃ r, (db.query s ⟨disableChecks, []⟩).1 = Reply.ok r) ∧
    tables (db.query s ⟨disableChecks, []⟩).2 = tables s
  enable : ∀ s, (∃ r, (db.query s ⟨enableChecks, []⟩).1 = Reply.ok r) ∧
    tables (db.query s ⟨enableChecks, []⟩).2 = tables s
  create : ∀ s sql t, createTarget sql = some t →
    (∃ r, (db.query s ⟨sql, []⟩).1 = Reply.ok r) ∧
    tables (db.query s ⟨sql, []⟩).2 = insert t (tables s)

/-! ## Unfolding the handlers -/

section Unfolding
variable {σ V : Type}

theorem createTablesQueries_length : createTablesQueries.length = 5 := rfl

theorem executeQuery_done_ok (db : Store σ V) (index : Nat) (s s1 : σ) (r : OkPacket)
    (h : 5 ≤ index) (hq : db.query s ⟨enableChecks, []⟩ = (Reply.ok r, s1)) :
    executeQuery db index s =
      ⟨[Event.issued ⟨enableChecks, []⟩,
        Event.sent ⟨200, "All tables created successfully!"⟩], s1⟩ := by
  rw [executeQuery]
  have h5 : index ≥ createTablesQueries.length := by rw [createTablesQueries_length]; exact h
  simp only [h5, dite_true, hq]

theorem executeQuery_done_err (db : Store σ V) (index : Nat) (s s1 : σ) (e : MysqlError)
    (h : 5 ≤ index) (hq : db.query s ⟨enableChecks, []⟩ = (Reply.err e, s1)) :
    executeQuery db index s =
      ⟨[Event.issued ⟨enableChecks, []⟩,
        Event.consoleError "Error re-enabling foreign key checks:" e,
        Event.sent ⟨200, "All tables created successfully!"⟩], s1⟩ := by
  rw [executeQuery]
  have h5 : index ≥ createTablesQueries.length := by rw [createTablesQueries_length]; exact h
  simp only [h5, dite_true, hq]

theorem executeQuery_step_ok (db : Store σ V) (index : Nat) (s s1 : σ) (r : OkPacket)
    (h : index < createTablesQueries.length)
    (hq : db.query s ⟨createTablesQueries[index], []⟩ = (Reply.ok r, s1)) :
    executeQuery db index s =
      (executeQuery db (index + 1) s1).after
        [Event.issued ⟨createTablesQueries[index], []⟩,
         Event.consoleLog ("Table " ++ toString (index + 1) ++ " created successfully")] := by
  rw [executeQuery]
  have h5 : ¬ index ≥ createTablesQueries.length := by omega
  simp only [h5, dite_false, hq]

theorem executeQuery_step_err (db : Store σ V) (index : Nat) (s s1 : σ) (e : MysqlError)
    (h : index < createTablesQueries.length)
    (hq : db.query s ⟨createTablesQueries[index], []⟩ = (Reply.err e, s1)) :
    executeQuery db index s =
      ⟨[Event.issued ⟨createTablesQueries[index], []⟩,
        Event.consoleError ("Error creating table " ++ toString (index + 1) ++ ":") e,
        Event.sent ⟨500, "Error creating table " ++ toString (index + 1) ++ ": "
          ++ template e.sqlMessage⟩], s1⟩ := by
  rw [executeQuery]
  have h5 : ¬ index ≥ createTablesQueries.length := by omega
  simp only [h5, dite_false, hq]

theorem install_ok (db : Store σ V) (s s1 : σ) (r : OkPacket)
    (hq : db.query s ⟨disableChecks, []⟩ = (Reply.ok r, s1)) :
    install db s = (executeQuery db 0 s1).after [Event.issued ⟨disableChecks, []⟩] := by
  simp only [install, hq]

theorem install_err (db : Store σ V) (s s1 : σ) (e : MysqlError)
    (hq : db.query s ⟨disableChecks, []⟩ = (Reply.err e, s1)) :
    install db s =
      ⟨[Event.issued ⟨disableChecks, []⟩,
        Event.sent ⟨500, "Error disabling foreign key checks"⟩], s1⟩ := by
  simp only [install, hq]

theorem installQueries_eq :
    installQueries V =
      [⟨disableChecks, []⟩, ⟨createTablesQueries[0], []⟩, ⟨createTablesQueries[1], []⟩,
       ⟨createTablesQueries[2], []⟩, ⟨createTablesQueries[3], []⟩,
       ⟨createTablesQueries[4], []⟩, ⟨enableChecks, []⟩] := rfl

end Unfolding

/-! ## The installer against the answers of the store -/

section Installer
variable {σ V : Type}

/-- The run of the install handler, described by the answers the store gives to
the seven statements: which statements are issued, the one response, the state
the store is left in, and that the response is the last event. -/
theorem install_spec (db : Store σ V) (s : σ) :
    issuedOf (install db s).events
        = (installQueries V).take (haltLength (db.answers s (installQueries V))) ∧
    sentOf (install db s).events = [installResponse (db.answers s (installQueries V))] ∧
    (install db s).store = db.stateAfter s (issuedOf (install db s).events) ∧
    (install db s).events.getLast?
        = some (Event.sent (installResponse (db.answers s (installQueries V)))) := by
  rcases h0 : db.query s ⟨disableChecks, []⟩ with ⟨r0, s1⟩
  cases r0 with
  | err e =>
    rw [install_err db s s1 e h0, installQueries_eq]
    simp [Store.answers, Store.stateAfter, h0, firstFailure, haltLength, installResponse,
      issuedOf, sentOf]
  | ok p0 =>
    rw [install_ok db s s1 p0 h0]
    rcases h1 : db.query s1 ⟨createTablesQueries[0], []⟩ with ⟨r1, s2⟩
    cases r1 with
    | err e =>
      rw [executeQuery_step_err db 0 s1 s2 e (by decide) h1, installQueries_eq]
      simp [Store.answers, Store.stateAfter, h0, h1, firstFailure, haltLength,
        installResponse, issuedOf, sentOf, Outcome.after]
    | ok p1 =>
      rw [executeQuery_step_ok db 0 s1 s2 p1 (by decide) h1]
      rcases h2 : db.query s2 ⟨createTablesQueries[1], []⟩ with ⟨r2, s3⟩
      cases r2 with
      | err e =>
        rw [executeQuery_step_err db 1 s2 s3 e (by decide) h2, installQueries_eq]
        simp [Store.answers, Store.stateAfter, h0, h1, h2, firstFailure, haltLength,
          installResponse, issuedOf, sentOf, Outcome.after]
      | ok p2 =>
        rw [executeQuery_step_ok db 1 s2 s3 p2 (by decide) h2]
        rcases h3 : db.query s3 ⟨createTablesQueries[2], []⟩ with ⟨r3, s4⟩
        cases r3 with
        | err e =>
          rw [executeQuery_step_err db 2 s3 s4 e (by decide) h3, installQueries_eq]
          simp [Store.answers, Store.stateAfter, h0, h1, h2, h3, firstFailure, haltLength,
            installResponse, issuedOf, sentOf, Outcome.after]
        | ok p3 =>
          rw [executeQuery_step_ok db 2 s3 s4 p3 (by decide) h3]
          rcases h4 : db.query s4 ⟨createTablesQueries[3], []⟩ with ⟨r4, s5⟩
          cases r4 with
          | err e =>
            rw [executeQuery_step_err db 3 s4 s5 e (by decide) h4, installQueries_eq]
            simp [Store.answers, Store.stateAfter, h0, h1, h2, h3, h4, firstFailure, haltLength,
              installResponse, issuedOf, sentOf, Outcome.after]
          | ok p4 =>
            rw [executeQuery_step_ok db 3 s4 s5 p4 (by decide) h4]
            rcases h5 : db.query s5 ⟨createTablesQueries[4], []⟩ with ⟨r5, s6⟩
            cases r5 with
            | err e =>
              rw [executeQuery_step_err db 4 s5 s6 e (by decide) h5, installQueries_eq]
              simp [Store.answers, Store.stateAfter, h0, h1, h2, h3, h4, h5, firstFailure, haltLength,
                installResponse, issuedOf, sentOf, Outcome.after]
            | ok p5 =>
              rw [executeQuery_step_ok db 4 s5 s6 p5 (by decide) h5]
              rcases h6 : db.query s6 ⟨enableChecks, []⟩ with ⟨r6, s7⟩
              cases r6 with
              | err e =>
                rw [executeQuery_done_err db 5 s6 s7 e (by decide) h6, installQueries_eq]
                simp [Store.answers, Store.stateAfter, h0, h1, h2, h3, h4, h5, h6, firstFailure, haltLength,
                  installResponse, issuedOf, sentOf, Outcome.after]
              | ok p6 =>
                rw [executeQuery_done_ok db 5 s6 s7 p6 (by decide) h6, installQueries_eq]
                simp [Store.answers, Store.stateAfter, h0, h1, h2, h3, h4, h5, h6, firstFailure, haltLength,
                  installResponse, issuedOf, sentOf, Outcome.after]

end Installer


/-! ## Answers and first failures -/

section Answers
variable {σ V : Type}

theorem firstFailure_eq_some (l : List Reply) (k : Nat) (e : MysqlError)
    (hok : FirstSucceed l k) (hfail : l[k]? = some (Reply.err e)) :
    firstFailure l = some (k, e) := by
  induction l generalizing k with
  | nil => simp at hfail
  | cons a rest ih =>
    cases k with
    | zero =>
      simp at hfail
      subst hfail
      rfl
    | succ k =>
      obtain ⟨r, hr⟩ := hok 0 (by omega)
      simp at hr
      subst hr
      have h1 : FirstSucceed rest k := by
        intro i hi
        have := hok (i + 1) (by omega)
        simpa using this
      have h2 : rest[k]? = some (Reply.err e) := by simpa using hfail
      simp [firstFailure, ih k h1 h2]

theorem firstFailure_eq_none (l : List Reply) (hok : FirstSucceed l l.length) :
    firstFailure l = none := by
  induction l with
  | nil => rfl
  | cons a rest ih =>
    obtain ⟨r, hr⟩ := hok 0 (by simp)
    simp at hr
    subst hr
    have h1 : FirstSucceed rest rest.length := by
      intro i hi
      have := hok (i + 1) (by simp; omega)
      simpa using this
    simp [firstFailure, ih h1]

theorem answers_length (db : Store σ V) (s : σ) (qs : List (Query V)) :
    (db.answers s qs).length = qs.length := by
  induction qs generalizing s with
  | nil => rfl
  | cons q qs ih => simp [Store.answers, ih]

theorem installQueries_length : (installQueries V).length = 7 := rfl

theorem installQueries_nodup : (installQueries V).Nodup := by
  have h : (disableChecks :: createTablesQueries ++ [enableChecks]).Nodup := by decide
  exact h.map (fun a b hab => by injection hab)

theorem firstFailure_take (db : Store σ V) (s : σ) (k : Nat) (e : MysqlError) (hk5 : k ≤ 5)
    (hok : FirstSucceed (db.answers s (installQueries V)) k)
    (hfail : (db.answers s (installQueries V))[k]? = some (Reply.err e)) :
    firstFailure ((db.answers s (installQueries V)).take 6) = some (k, e) := by
  apply firstFailure_eq_some
  · intro i hi
    rw [List.getElem?_take_of_lt (by omega)]
    exact hok i hi
  · rw [List.getElem?_take_of_lt (by omega)]
    exact hfail

theorem firstFailure_take_none (db : Store σ V) (s : σ)
    (hok : FirstSucceed (db.answers s (installQueries V)) 6) :
    firstFailure ((db.answers s (installQueries V)).take 6) = none := by
  apply firstFailure_eq_none
  intro i hi
  rw [List.length_take, answers_length, installQueries_length] at hi
  rw [List.getElem?_take_of_lt (by omega)]
  exact hok i (by omega)

theorem not_issued_later (db : Store σ V) (s : σ) (n : Nat)
    (h : issuedOf (install db s).events = (installQueries V).take n) :
    ∀ q, q ∈ (installQueries V).drop n → q ∉ issuedOf (install db s).events := by
  intro q hq hmem
  rw [h] at hmem
  exact List.disjoint_take_drop installQueries_nodup (Nat.le_refl n) hmem hq

/-- When the toggle and the five definitions succeed, all seven statements are
issued, the confirmation is sent, and the store has seen the seven statements
one after the other. -/
theorem install_all_succeed (db : Store σ V) (s : σ)
    (hok : FirstSucceed (db.answers s (installQueries V)) 6) :
    issuedOf (install db s).events = installQueries V ∧
    sentOf (install db s).events = [⟨200, "All tables created successfully!"⟩] ∧
    (install db s).store = db.stateAfter s (installQueries V) := by
  have hnone := firstFailure_take_none db s hok
  obtain ⟨hi, hs, hst, -⟩ := install_spec db s
  have hall : issuedOf (install db s).events = installQueries V := by
    rw [hi, haltLength, hnone]
    rfl
  refine ⟨hall, ?_, ?_⟩
  · rw [hs, installResponse, hnone]
  · rw [hst, hall]

/-- When the toggle fails, the handler issues the toggle and sends the fixed
error response; nothing is logged. -/
theorem install_toggle_failed (db : Store σ V) (s : σ) (e : MysqlError)
    (hfail : (db.answers s (installQueries V))[0]? = some (Reply.err e)) :
    (install db s).events =
      [Event.issued ⟨disableChecks, []⟩,
       Event.sent ⟨500, "Error disabling foreign key checks"⟩] := by
  rw [installQueries_eq] at hfail
  rcases h0 : db.query s ⟨disableChecks, []⟩ with ⟨r0, s1⟩
  cases r0 with
  | ok p0 => simp [Store.answers, h0] at hfail
  | err e0 => rw [install_err db s s1 e0 h0]

/-- When the toggle and the five definitions succeed and the restore fails with
the error `e`, the handler logs `e` on the console after issuing the restore
and then sends the confirmation. -/
theorem install_restore_failed (db : Store σ V) (s : σ) (e : MysqlError)
    (hok : FirstSucceed (db.answers s (installQueries V)) 6)
    (hfail : (db.answers s (installQueries V))[6]? = some (Reply.err e)) :
    (install db s).events =
        [Event.issued ⟨disableChecks, []⟩,
         Event.issued ⟨createTablesQueries[0], []⟩,
         Event.consoleLog "Table 1 created successfully",
         Event.issued ⟨createTablesQueries[1], []⟩,
         Event.consoleLog "Table 2 created successfully",
         Event.issued ⟨createTablesQueries[2], []⟩,
         Event.consoleLog "Table 3 created successfully",
         Event.issued ⟨createTablesQueries[3], []⟩,
         Event.consoleLog "Table 4 created successfully",
         Event.issued ⟨createTablesQueries[4], []⟩,
         Event.consoleLog "Table 5 created successfully",
         Event.issued ⟨enableChecks, []⟩,
         Event.consoleError "Error re-enabling foreign key checks:" e,
         Event.sent ⟨200, "All tables created successfully!"⟩] := by
  have a0 := hok 0 (by omega)
  have a1 := hok 1 (by omega)
  have a2 := hok 2 (by omega)
  have a3 := hok 3 (by omega)
  have a4 := hok 4 (by omega)
  have a5 := hok 5 (by omega)
  rw [installQueries_eq] at a0 a1 a2 a3 a4 a5 hfail
  rcases h0 : db.query s ⟨disableChecks, []⟩ with ⟨r0, s1⟩
  cases r0 with
  | err e0 => simp [Store.answers, h0] at a0
  | ok p0 =>
    rw [install_ok db s s1 p0 h0]
    rcases h1 : db.query s1 ⟨createTablesQueries[0], []⟩ with ⟨r1, s2⟩
    cases r1 with
    | err e0 => simp [Store.answers, h0, h1] at a1
    | ok p1 =>
      rw [executeQuery_step_ok db 0 s1 s2 p1 (by decide) h1]
      rcases h2 : db.query s2 ⟨createTablesQueries[1], []⟩ with ⟨r2, s3⟩
      cases r2 with
      | err e0 => simp [Store.answers, h0, h1, h2] at a2
      | ok p2 =>
        rw [executeQuery_step_ok db 1 s2 s3 p2 (by decide) h2]
        rcases h3 : db.query s3 ⟨createTablesQueries[2], []⟩ with ⟨r3, s4⟩
        cases r3 with
        | err e0 => simp [Store.answers, h0, h1, h2, h3] at a3
        | ok p3 =>
          rw [executeQuery_step_ok db 2 s3 s4 p3 (by decide) h3]
          rcases h4 : db.query s4 ⟨createTablesQueries[3], []⟩ with ⟨r4, s5⟩
          cases r4 with
          | err e0 => simp [Store.answers, h0, h1, h2, h3, h4] at a4
          | ok p4 =>
            rw [executeQuery_step_ok db 3 s4 s5 p4 (by decide) h4]
            rcases h5 : db.query s5 ⟨createTablesQueries[4], []⟩ with ⟨r5, s6⟩
            cases r5 with
            | err e0 => simp [Store.answers, h0, h1, h2, h3, h4, h5] at a5
            | ok p5 =>
              rw [executeQuery_step_ok db 4 s5 s6 p5 (by decide) h5]
              rcases h6 : db.query s6 ⟨enableChecks, []⟩ with ⟨r6, s7⟩
              cases r6 with
              | ok p6 => simp [Store.answers, h0, h1, h2, h3, h4, h5, h6] at hfail
              | err e0 =>
                simp only [Store.answers, h0, h1, h2, h3, h4, h5, h6, List.getElem?_cons_succ,
                  List.getElem?_cons_zero, Option.some.injEq, Reply.err.injEq] at hfail
                subst hfail
                rw [executeQuery_done_err db 5 s6 s7 e0 (by decide) h6]
                rfl

theorem contains_append (a m : String) : Contains (a ++ m) m :=
  ⟨a.data, [], by simp [String.data_append]⟩

end Answers

/-! ## The claims -/

section Claims
variable {σ V : Type}

/-- C1: in `GET /install`, when `SET FOREIGN_KEY_CHECKS = 0` succeeds and the
`k`-th table definition (`1 ≤ k ≤ 5`) is the first statement to fail, with
store message `m`, the one response has status 500 and the body
`Error creating table k: m`. -/
theorem install_reports_failing_step (db : Store σ V) (s : σ) (k : Nat) (e : MysqlError)
    (m : String) (hk : 1 ≤ k) (hk5 : k ≤ 5)
    (hok : FirstSucceed (db.answers s (installQueries V)) k)
    (hfail : (db.answers s (installQueries V))[k]? = some (Reply.err e))
    (hm : e.sqlMessage = some m) :
    sentOf (install db s).events
      = [⟨500, "Error creating table " ++ toString k ++ ": " ++ m⟩] := by
  have hff := firstFailure_take db s k e hk5 hok hfail
  rw [(install_spec db s).2.1]
  obtain ⟨j, rfl⟩ : ∃ j, k = j + 1 := ⟨k - 1, by omega⟩
  simp [installResponse, hff, hm, template]

/-- Witness of C1: the second table definition fails, as in the test of the
specification; the response names step 2. -/
theorem install_reports_failing_step_witness :
    ((failingAt 2 "Table storage is full").answers 0 (installQueries String))[2]?
        = some (Reply.err ⟨some "Table storage is full"⟩) ∧
    sentOf (install (failingAt 2 "Table storage is full") 0).events
      = [⟨500, "Error creating table 2: Table storage is full"⟩] :=
  ⟨by decide,
   install_reports_failing_step (failingAt 2 "Table storage is full") 0 2
     ⟨some "Table storage is full"⟩ "Table storage is full" (by decide) (by decide)
     (by intro i hi; interval_cases i <;> exact ⟨_, rfl⟩) (by decide) rfl⟩

/-- C2: halt on first failure.  The statements `GET /install` issues are the
seven statements of the installer up to and including the first one among the
first six that fails (all seven when none of them fails), and no later statement
is issued.  When the toggle fails only the toggle is issued; when definition `k`
is the first to fail, the statements after it, the restore among them, are not
issued. -/
theorem install_halts_at_first_failure (db : Store σ V) (s : σ) :
    issuedOf (install db s).events
        = (installQueries V).take (haltLength (db.answers s (installQueries V))) ∧
    (∀ q, q ∈ (installQueries V).drop (haltLength (db.answers s (installQueries V))) →
        q ∉ issuedOf (install db s).events) ∧
    (∀ e, (db.answers s (installQueries V))[0]? = some (Reply.err e) →
        issuedOf (install db s).events = [⟨disableChecks, []⟩]) ∧
    (∀ k e, 1 ≤ k → k ≤ 5 →
        FirstSucceed (db.answers s (installQueries V)) k →
        (db.answers s (installQueries V))[k]? = some (Reply.err e) →
        issuedOf (install db s).events = (installQueries V).take (k + 1) ∧
        ∀ q, q ∈ (installQueries V).drop (k + 1) → q ∉ issuedOf (install db s).events) := by
  have hi := (install_spec db s).1
  refine ⟨hi, not_issued_later db s _ hi, ?_, ?_⟩
  · intro e he
    have hff := firstFailure_take db s 0 e (by omega) (by intro i hi; omega) he
    rw [hi, haltLength, hff]
    rfl
  · intro k e _ hk5 hok hfail
    have hff := firstFailure_take db s k e hk5 hok hfail
    have hk : issuedOf (install db s).events = (installQueries V).take (k + 1) := by
      rw [hi, haltLength, hff]
    exact ⟨hk, not_issued_later db s _ hk⟩

/-- Witness of C2: when the toggle fails, only the toggle is issued; when the
second table definition fails, the toggle and two definitions are issued. -/
theorem install_halts_at_first_failure_witness :
    issuedOf (install (failingAt 0 "Deadlock found") 0).events
      = [⟨disableChecks, []⟩] ∧
    issuedOf (install (failingAt 2 "Deadlock found") 0).events
      = [⟨disableChecks, []⟩, ⟨createTablesQueries[0], []⟩, ⟨createTablesQueries[1], []⟩] :=
  ⟨(install_halts_at_first_failure (failingAt 0 "Deadlock found") 0).2.2.1
      ⟨some "Deadlock found"⟩ (by decide),
   ((install_halts_at_first_failure (failingAt 2 "Deadlock found") 0).2.2.2 2
      ⟨some "Deadlock found"⟩ (by decide) (by decide)
      (by intro i hi; interval_cases i <;> exact ⟨_, rfl⟩) (by decide)).1⟩

/-- C3: success path of `GET /install`.  When the toggle and all five
table definitions succeed, the handler issues the toggle, then the five
table definitions in declared order, each after the success of the one before
was logged, then `SET FOREIGN_KEY_CHECKS = 1`, and after that sends its one
response, status 200 with body `All tables created successfully!`; the store
has seen the seven statements one after the other. -/
theorem install_success_path (db : Store σ V) (s : σ)
    (hok : FirstSucceed (db.answers s (installQueries V)) 6) :
    issuedOf (install db s).events = installQueries V ∧
    sentOf (install db s).events = [⟨200, "All tables created successfully!"⟩] ∧
    (install db s).store = db.stateAfter s (installQueries V) ∧
    ∃ rest,
      (install db s).events =
        [Event.issued ⟨disableChecks, []⟩,
         Event.issued ⟨createTablesQueries[0], []⟩,
         Event.consoleLog "Table 1 created successfully",
         Event.issued ⟨createTablesQueries[1], []⟩,
         Event.consoleLog "Table 2 created successfully",
         Event.issued ⟨createTablesQueries[2], []⟩,
         Event.consoleLog "Table 3 created successfully",
         Event.issued ⟨createTablesQueries[3], []⟩,
         Event.consoleLog "Table 4 created successfully",
         Event.issued ⟨createTablesQueries[4], []⟩,
         Event.consoleLog "Table 5 created successfully",
         Event.issued ⟨enableChecks, []⟩] ++ rest ∧
      (rest = [Event.sent ⟨200, "All tables created successfully!"⟩] ∨
       ∃ e, rest = [Event.consoleError "Error re-enabling foreign key checks:" e,
                    Event.sent ⟨200, "All tables created successfully!"⟩]) := by
  obtain ⟨hall, hs, hst⟩ := install_all_succeed db s hok
  refine ⟨hall, hs, hst, ?_⟩
  have a0 := hok 0 (by omega)
  have a1 := hok 1 (by omega)
  have a2 := hok 2 (by omega)
  have a3 := hok 3 (by omega)
  have a4 := hok 4 (by omega)
  have a5 := hok 5 (by omega)
  rw [installQueries_eq] at a0 a1 a2 a3 a4 a5
  rcases h0 : db.query s ⟨disableChecks, []⟩ with ⟨r0, s1⟩
  cases r0 with
  | err e => simp [Store.answers, h0] at a0
  | ok p0 =>
    rw [install_ok db s s1 p0 h0]
    rcases h1 : db.query s1 ⟨createTablesQueries[0], []⟩ with ⟨r1, s2⟩
    cases r1 with
    | err e => simp [Store.answers, h0, h1] at a1
    | ok p1 =>
      rw [executeQuery_step_ok db 0 s1 s2 p1 (by decide) h1]
      rcases h2 : db.query s2 ⟨createTablesQueries[1], []⟩ with ⟨r2, s3⟩
      cases r2 with
      | err e => simp [Store.answers, h0, h1, h2] at a2
      | ok p2 =>
        rw [executeQuery_step_ok db 1 s2 s3 p2 (by decide) h2]
        rcases h3 : db.query s3 ⟨createTablesQueries[2], []⟩ with ⟨r3, s4⟩
        cases r3 with
        | err e => simp [Store.answers, h0, h1, h2, h3] at a3
        | ok p3 =>
          rw [executeQuery_step_ok db 2 s3 s4 p3 (by decide) h3]
          rcases h4 : db.query s4 ⟨createTablesQueries[3], []⟩ with ⟨r4, s5⟩
          cases r4 with
          | err e => simp [Store.answers, h0, h1, h2, h3, h4] at a4
          | ok p4 =>
            rw [executeQuery_step_ok db 3 s4 s5 p4 (by decide) h4]
            rcases h5 : db.query s5 ⟨createTablesQueries[4], []⟩ with ⟨r5, s6⟩
            cases r5 with
            | err e => simp [Store.answers, h0, h1, h2, h3, h4, h5] at a5
            | ok p5 =>
              rw [executeQuery_step_ok db 4 s5 s6 p5 (by decide) h5]
              rcases h6 : db.query s6 ⟨enableChecks, []⟩ with ⟨r6, s7⟩
              cases r6 with
              | err e =>
                rw [executeQuery_done_err db 5 s6 s7 e (by decide) h6]
                exact ⟨_, rfl, Or.inr ⟨e, rfl⟩⟩
              | ok p6 =>
                rw [executeQuery_done_ok db 5 s6 s7 p6 (by decide) h6]
                exact ⟨_, rfl, Or.inl rfl⟩

/-- Witness of C3: a store that fails only the restore; the confirmation is
still sent. -/
theorem install_success_path_witness :
    FirstSucceed ((failingAt 6 "Deadlock found").answers 0 (installQueries String)) 6 ∧
    sentOf (install (failingAt 6 "Deadlock found") 0).events
      = [⟨200, "All tables created successfully!"⟩] :=
  ⟨by intro i hi; interval_cases i <;> exact ⟨_, rfl⟩,
   (install_success_path (failingAt 6 "Deadlock found") 0
     (by intro i hi; interval_cases i <;> exact ⟨_, rfl⟩)).2.1⟩

/-- On a store that creates tables if absent, the installer succeeds from every
state and leaves the tables that existed before together with the five tables of
the schema. -/
theorem install_on_tables (db : Store σ V) (tables : σ → Finset String)
    (h : CreatesIfAbsent db tables) (s : σ) :
    sentOf (install db s).events = [⟨200, "All tables created successfully!"⟩] ∧
    tables (install db s).store = tables s ∪ schemaTables := by
  have t0 : createTarget createTablesQueries[0] = some "products" := by decide
  have t1 : createTarget createTablesQueries[1] = some "colors" := by decide
  have t2 : createTarget createTablesQueries[2] = some "storage_options" := by decide
  have t3 : createTarget createTablesQueries[3] = some "features" := by decide
  have t4 : createTarget createTablesQueries[4] = some "specifications" := by decide
  have hok : FirstSucceed (db.answers s (installQueries V)) 6 := by
    intro i hi
    rw [installQueries_eq]
    interval_cases i
    · simpa [Store.answers] using (h.disable _).1
    · simpa [Store.answers] using (h.create _ _ _ t0).1
    · simpa [Store.answers] using (h.create _ _ _ t1).1
    · simpa [Store.answers] using (h.create _ _ _ t2).1
    · simpa [Store.answers] using (h.create _ _ _ t3).1
    · simpa [Store.answers] using (h.create _ _ _ t4).1
  obtain ⟨-, hs, hst⟩ := install_all_succeed db s hok
  refine ⟨hs, ?_⟩
  rw [hst, installQueries_eq]
  simp only [Store.stateAfter]
  rw [(h.enable _).2, (h.create _ _ _ t4).2, (h.create _ _ _ t3).2, (h.create _ _ _ t2).2,
    (h.create _ _ _ t1).2, (h.create _ _ _ t0).2, (h.disable _).2]
  ext x
  simp only [schemaTables, Finset.mem_insert, Finset.mem_union, Finset.mem_singleton]
  tauto

/-- The table store creates tables if absent. -/
theorem tableStore_createsIfAbsent : CreatesIfAbsent tableStore (fun s => s) := by
  have d0 : createTarget disableChecks = none := by decide
  have d1 : createTarget enableChecks = none := by decide
  refine ⟨?_, ?_, ?_⟩
  · intro s
    simp [tableStore, d0]
  · intro s
    simp [tableStore, d1]
  · intro s sql t ht
    simp [tableStore, ht]

/-- C4: idempotence of install.  On a store on which the toggles succeed and
`CREATE TABLE IF NOT EXISTS t` succeeds whether or not `t` exists, a call of
`GET /install` from any state, also one in which only some of the five tables
exist, is answered with the confirmation and leaves the tables that existed
together with the five tables of the schema; a second call in succession is
answered with the confirmation too and leaves the set of existing tables as it
was after the first. -/
theorem install_idempotent (db : Store σ V) (tables : σ → Finset String)
    (h : CreatesIfAbsent db tables) (s : σ) :
    sentOf (install db s).events = [⟨200, "All tables created successfully!"⟩] ∧
    tables (install db s).store = tables s ∪ schemaTables ∧
    sentOf (install db (install db s).store).events
      = [⟨200, "All tables created successfully!"⟩] ∧
    tables (install db (install db s).store).store = tables (install db s).store := by
  obtain ⟨h1, h2⟩ := install_on_tables db tables h s
  obtain ⟨h3, h4⟩ := install_on_tables db tables h (install db s).store
  refine ⟨h1, h2, h3, ?_⟩
  rw [h4, h2, Finset.union_assoc, Finset.union_self]

/-- Witness of C4: the table store, started after a partial failure that left
only `products` behind. -/
theorem install_idempotent_witness :
    sentOf (install tableStore (install tableStore {"products"}).store).events
      = [⟨200, "All tables created successfully!"⟩] ∧
    (install tableStore (install tableStore {"products"}).store).store
      = (install tableStore {"products"}).store ∧
    (install tableStore {"products"}).store = {"products"} ∪ schemaTables :=
  ⟨(install_idempotent tableStore (fun s => s) tableStore_createsIfAbsent {"products"}).2.2.1,
   (install_idempotent tableStore (fun s => s) tableStore_createsIfAbsent {"products"}).2.2.2,
   (install_idempotent tableStore (fun s => s) tableStore_createsIfAbsent {"products"}).2.1⟩

/-- C5, as the code has it: native passthrough holds for each of the five
table definitions and for the product insert, whose failure with message `m` is
answered with status 500 and a body that contains `m` verbatim.  A failing
`SET FOREIGN_KEY_CHECKS = 0` is answered with status 500 and the fixed body
`Error disabling foreign key checks`, and nothing is logged.  A failing
`SET FOREIGN_KEY_CHECKS = 1` is logged only: its error object goes to the
console with the text `Error re-enabling foreign key checks:`, and the response
that follows is the confirmation with status 200. -/
theorem store_errors_relayed (db : Store σ V) (s : σ) (body : String → V) :
    (∀ k e m, 1 ≤ k → k ≤ 5 →
        FirstSucceed (db.answers s (installQueries V)) k →
        (db.answers s (installQueries V))[k]? = some (Reply.err e) →
        e.sqlMessage = some m →
        ∃ r, sentOf (install db s).events = [r] ∧ r.status = 500 ∧ Contains r.body m) ∧
    (∀ e m,
        (db.query s ⟨insertQuery, [body "name", body "price", body "description",
          body "release_date", body "image_url"]⟩).1 = Reply.err e →
        e.sqlMessage = some m →
        ∃ r, sentOf (addProduct db body s).events = [r] ∧ r.status = 500 ∧
          Contains r.body m) ∧
    (∀ e, (db.answers s (installQueries V))[0]? = some (Reply.err e) →
        sentOf (install db s).events = [⟨500, "Error disabling foreign key checks"⟩] ∧
        (install db s).events =
          [Event.issued ⟨disableChecks, []⟩,
           Event.sent ⟨500, "Error disabling foreign key checks"⟩]) ∧
    (∀ e, FirstSucceed (db.answers s (installQueries V)) 6 →
        (db.answers s (installQueries V))[6]? = some (Reply.err e) →
        sentOf (install db s).events = [⟨200, "All tables created successfully!"⟩] ∧
        (install db s).events =
        [Event.issued ⟨disableChecks, []⟩,
         Event.issued ⟨createTablesQueries[0], []⟩,
         Event.consoleLog "Table 1 created successfully",
         Event.issued ⟨createTablesQueries[1], []⟩,
         Event.consoleLog "Table 2 created successfully",
         Event.issued ⟨createTablesQueries[2], []⟩,
         Event.consoleLog "Table 3 created successfully",
         Event.issued ⟨createTablesQueries[3], []⟩,
         Event.consoleLog "Table 4 created successfully",
         Event.issued ⟨createTablesQueries[4], []⟩,
         Event.consoleLog "Table 5 created successfully",
         Event.issued ⟨enableChecks, []⟩,
         Event.consoleError "Error re-enabling foreign key checks:" e,
         Event.sent ⟨200, "All tables created successfully!"⟩]) := by
  refine ⟨?_, ?_, ?_, ?_⟩
  · intro k e m hk hk5 hok hfail hm
    have hff := firstFailure_take db s k e hk5 hok hfail
    obtain ⟨j, rfl⟩ : ∃ j, k = j + 1 := ⟨k - 1, by omega⟩
    refine ⟨_, (install_spec db s).2.1, ?_, ?_⟩
    · simp [installResponse, hff]
    · simp only [installResponse, hff, hm, template]
      exact contains_append _ m
  · intro e m he hm
    rcases hq : db.query s ⟨insertQuery, [body "name", body "price", body "description",
      body "release_date", body "image_url"]⟩ with ⟨r, s1⟩
    rw [hq] at he
    simp only at he
    subst he
    refine ⟨⟨500, "Error adding product: " ++ m⟩, ?_, rfl, contains_append _ m⟩
    simp [addProduct, hq, sentOf, hm, template]
  · intro e he
    have hff := firstFailure_take db s 0 e (by omega) (by intro i hi; omega) he
    refine ⟨?_, install_toggle_failed db s e he⟩
    rw [(install_spec db s).2.1, installResponse, hff]
  · intro e hok hfail
    exact ⟨(install_all_succeed db s hok).2.1, install_restore_failed db s e hok hfail⟩

/-- Witness of C5 as amended: when the third table definition fails, its message
is part of the response; when the restore fails, its error object is on the
console and the response is the confirmation. -/
theorem store_errors_relayed_witness :
    (∃ r, sentOf (install (failingAt 3 "Table storage is full") 0).events = [r] ∧
      r.status = 500 ∧ Contains r.body "Table storage is full") ∧
    sentOf (install (failingAt 6 "Deadlock found") 0).events
      = [⟨200, "All tables created successfully!"⟩] ∧
    (install (failingAt 6 "Deadlock found") 0).events =
        [Event.issued ⟨disableChecks, []⟩,
         Event.issued ⟨createTablesQueries[0], []⟩,
         Event.consoleLog "Table 1 created successfully",
         Event.issued ⟨createTablesQueries[1], []⟩,
         Event.consoleLog "Table 2 created successfully",
         Event.issued ⟨createTablesQueries[2], []⟩,
         Event.consoleLog "Table 3 created successfully",
         Event.issued ⟨createTablesQueries[3], []⟩,
         Event.consoleLog "Table 4 created successfully",
         Event.issued ⟨createTablesQueries[4], []⟩,
         Event.consoleLog "Table 5 created successfully",
         Event.issued ⟨enableChecks, []⟩,
         Event.consoleError "Error re-enabling foreign key checks:" ⟨some "Deadlock found"⟩,
         Event.sent ⟨200, "All tables created successfully!"⟩] :=
  ⟨(store_errors_relayed (failingAt 3 "Table storage is full") 0 sampleBody).1 3
    ⟨some "Table storage is full"⟩ "Table storage is full" (by decide) (by decide)
    (by intro i hi; interval_cases i <;> exact ⟨_, rfl⟩) (by decide) rfl,
   (store_errors_relayed (failingAt 6 "Deadlock found") 0 sampleBody).2.2.2
    ⟨some "Deadlock found"⟩ (by intro i hi; interval_cases i <;> exact ⟨_, rfl⟩)
    (by decide)⟩

/-- Counterexample to C5 as stated: a store that fails
`SET FOREIGN_KEY_CHECKS = 0` with the message `Deadlock found` is answered with
a body that does not contain the message, and a store that fails
`SET FOREIGN_KEY_CHECKS = 1` with it is answered with status 200 and a body that
does not contain the message. -/
theorem store_errors_relayed_counterexample :
    ((failingAt 0 "Deadlock found").answers 0 (installQueries String))[0]?
        = some (Reply.err ⟨some "Deadlock found"⟩) ∧
    sentOf (install (failingAt 0 "Deadlock found") 0).events
        = [⟨500, "Error disabling foreign key checks"⟩] ∧
    ¬ Contains "Error disabling foreign key checks" "Deadlock found" ∧
    ((failingAt 6 "Deadlock found").answers 0 (installQueries String))[6]?
        = some (Reply.err ⟨some "Deadlock found"⟩) ∧
    sentOf (install (failingAt 6 "Deadlock found") 0).events
        = [⟨200, "All tables created successfully!"⟩] ∧
    ¬ Contains "All tables created successfully!" "Deadlock found" := by
  refine ⟨by decide, ?_, by decide, by decide, ?_, by decide⟩
  · rw [(install_spec (failingAt 0 "Deadlock found") 0).2.1]
    decide
  · rw [(install_spec (failingAt 6 "Deadlock found") 0).2.1]
    decide

/-- C6: response of `POST /add-product` as a function of the answer of the
store.  For every request body, a failing insert with store message `m` is
answered with status 500 and body `Error adding product: m`; a successful
insert is answered with status 200 and body `Product added successfully!`
whatever identifier was generated.  One response is sent and the insert is
issued once. -/
theorem addProduct_response (db : Store σ V) (body : String → V) (s : σ) :
    (∀ e m,
        (db.query s ⟨insertQuery, [body "name", body "price", body "description",
          body "release_date", body "image_url"]⟩).1 = Reply.err e →
        e.sqlMessage = some m →
        sentOf (addProduct db body s).events = [⟨500, "Error adding product: " ++ m⟩]) ∧
    (∀ results,
        (db.query s ⟨insertQuery, [body "name", body "price", body "description",
          body "release_date", body "image_url"]⟩).1 = Reply.ok results →
        sentOf (addProduct db body s).events = [⟨200, "Product added successfully!"⟩]) ∧
    (sentOf (addProduct db body s).events).length = 1 ∧
    (issuedOf (addProduct db body s).events).length = 1 := by
  rcases hq : db.query s ⟨insertQuery, [body "name", body "price", body "description",
    body "release_date", body "image_url"]⟩ with ⟨r, s1⟩
  cases r with
  | err e0 =>
    refine ⟨?_, ?_, ?_, ?_⟩
    · intro e m he hm
      simp only [Reply.err.injEq] at he
      subst he
      simp [addProduct, hq, sentOf, hm, template]
    · intro results he
      simp at he
    · simp [addProduct, hq, sentOf]
    · simp [addProduct, hq, issuedOf]
  | ok p =>
    refine ⟨?_, ?_, ?_, ?_⟩
    · intro e m he
      simp at he
    · intro results _
      simp [addProduct, hq, sentOf]
    · simp [addProduct, hq, sentOf]
    · simp [addProduct, hq, issuedOf]

/-- Witness of C6: an insert that the store rejects, and one that it accepts. -/
theorem addProduct_response_witness :
    sentOf (addProduct (failingAt 0 "Incorrect date value") sampleBody 0).events
      = [⟨500, "Error adding product: Incorrect date value"⟩] ∧
    sentOf (addProduct (failingAt 1 "Incorrect date value") sampleBody 0).events
      = [⟨200, "Product added successfully!"⟩] :=
  ⟨(addProduct_response (failingAt 0 "Incorrect date value") sampleBody 0).1
      ⟨some "Incorrect date value"⟩ "Incorrect date value" rfl rfl,
   (addProduct_response (failingAt 1 "Incorrect date value") sampleBody 0).2.1 ⟨0⟩ rfl⟩

/-- C7: `POST /add-product` issues one statement.  Its text is the constant
`insertQuery`, the same for every body and store: an `INSERT INTO products`
over the five columns with five `?` placeholders; the bound values are the
fields `name`, `price`, `description`, `release_date`, `image_url` of the body
in the order of the column list; and the text names none of the four dependent
tables. -/
theorem addProduct_parameterized (db : Store σ V) (body : String → V) (s : σ) :
    issuedOf (addProduct db body s).events
      = [⟨insertQuery, [body "name", body "price", body "description",
          body "release_date", body "image_url"]⟩] ∧
    (∀ (τ : Type) (db2 : Store τ V) (body2 : String → V) (s2 : τ),
      (issuedOf (addProduct db2 body2 s2).events).map (fun q => q.sql)
        = (issuedOf (addProduct db body s).events).map (fun q => q.sql)) ∧
    Contains insertQuery
      "INSERT INTO products (name, price, description, release_date, image_url)" ∧
    insertQuery.data.count '?' = 5 ∧
    (∀ q, q ∈ issuedOf (addProduct db body s).events →
      ∀ t, t ∈ ["colors", "storage_options", "features", "specifications"] →
        ¬ Contains q.sql t) := by
  have hissued : ∀ (τ : Type) (db2 : Store τ V) (body2 : String → V) (s2 : τ),
      issuedOf (addProduct db2 body2 s2).events
        = [⟨insertQuery, [body2 "name", body2 "price", body2 "description",
            body2 "release_date", body2 "image_url"]⟩] := by
    intro τ db2 body2 s2
    rcases hq : db2.query s2 ⟨insertQuery, [body2 "name", body2 "price",
      body2 "description", body2 "release_date", body2 "image_url"]⟩ with ⟨r, s1⟩
    cases r <;> simp [addProduct, hq, issuedOf]
  have hnone : ∀ t, t ∈ ["colors", "storage_options", "features", "specifications"] →
      ¬ Contains insertQuery t := by decide
  refine ⟨hissued σ db body s, ?_, by decide, by decide, ?_⟩
  · intro τ db2 body2 s2
    rw [hissued τ db2 body2 s2, hissued σ db body s]
    rfl
  · intro q hq t ht
    rw [hissued σ db body s, List.mem_singleton] at hq
    subst hq
    exact hnone t ht

/-- C8: shape of the schema definitions.  `createTablesQueries` holds five
statements; each is a `CREATE TABLE IF NOT EXISTS` statement, for `products`,
`colors`, `storage_options`, `features` and `specifications` in this order; the
root definition declares no foreign key and each of the four dependent ones
declares one, on `product_id`, referencing `products(product_id)`, with
`ON DELETE CASCADE`. -/
theorem createTablesQueries_shape :
    createTablesQueries.length = 5 ∧
    createTablesQueries.map createTarget =
      [some "products", some "colors", some "storage_options", some "features",
       some "specifications"] ∧
    createTablesQueries.map foreignKeyLines =
      [[],
       ["FOREIGN KEY (product_id) REFERENCES products(product_id) ON DELETE CASCADE"],
       ["FOREIGN KEY (product_id) REFERENCES products(product_id) ON DELETE CASCADE"],
       ["FOREIGN KEY (product_id) REFERENCES products(product_id) ON DELETE CASCADE"],
       ["FOREIGN KEY (product_id) REFERENCES products(product_id) ON DELETE CASCADE"]] := by
  refine ⟨rfl, by decide, by decide⟩

/-- C9, as the code has it: `cors` and `bodyParser.urlencoded` are registered
after the `GET /install` route and before the `POST /add-product` route, while
`express.json` is registered before `GET /install`.  A request to
`GET /install` therefore goes through `express.json` only, and requests to
`POST /add-product` and `GET /` go through all three. -/
theorem registration_order :
    app.indexOf (Layer.use Middleware.json)
      < app.indexOf (Layer.route Method.GET "/install") ∧
    (∀ m, m ∈ [Middleware.cors, Middleware.urlencoded] →
      app.indexOf (Layer.route Method.GET "/install") < app.indexOf (Layer.use m) ∧
      app.indexOf (Layer.use m) < app.indexOf (Layer.route Method.POST "/add-product")) ∧
    middlewareSeen app Method.GET "/install" = [Middleware.json] ∧
    middlewareSeen app Method.POST "/add-product"
      = [Middleware.json, Middleware.cors, Middleware.urlencoded] ∧
    middlewareSeen app Method.GET "/"
      = [Middleware.json, Middleware.cors, Middleware.urlencoded] := by
  decide

/-- Counterexample to C9 as stated: `express.json`, one of the body-parsing
middleware, is registered before the `GET /install` route and a request to
`GET /install` goes through it. -/
theorem registration_order_counterexample :
    app.indexOf (Layer.use Middleware.json)
      < app.indexOf (Layer.route Method.GET "/install") ∧
    Middleware.json ∈ middlewareSeen app Method.GET "/install" := by
  decide

/-- C10: exactly one response from `GET /install`.  Whatever the store answers
to the statements it is handed, `executeQuery 0` ends after the handler has
issued at most seven statements, and the handler sends one response, never none
and never two. -/
theorem install_sends_exactly_one_response (db : Store σ V) (s : σ) :
    (sentOf (install db s).events).length = 1 ∧
    (issuedOf (install db s).events).length ≤ 7 := by
  obtain ⟨hi, hs, -, -⟩ := install_spec db s
  rw [hi, hs]
  constructor
  · rfl
  · rw [List.length_take, installQueries_length]
    omega

end Claims

end App
